import Mathlib

/-!
Shallow embedding of `src/fsstat.py`, a FAT32 filesystem-image parser
(class `Fat`), together with theorems settling the frozen claims about it.

Modelling conventions:
* Python `bytes` values are `List Nat` (each element a byte value).
* Python `int` is `Nat` where the source value is always non-negative
  (values produced by `unpack`), and `Int` where subtraction can go
  negative (sector numbers, derived boot fields).
* Python file reads (`seek` + `read`) are modelled by `fileRead` on the
  in-memory image: a read past the end of the file returns the available
  (possibly empty) suffix, exactly as Python does.
* Python runtime errors (`assert` failures, `IndexError`, negative seek,
  `ZeroDivisionError`) are modelled with `Except FatErr`.  The spec's
  error taxonomy also names a `FormatError`; the constructor exists so
  that statements can mention it, but no code path produces it.
* Unbounded `while` loops and the recursive directory walk take a fuel
  parameter; running out of fuel yields the distinguished `fuelOut`
  error, which no claim confuses with a source-level error.
-/

/-- Errors a run of the parser can produce (plus `fuelOut` for the fuel
discipline and `formatError`, named by the spec but never raised). -/
inductive FatErr where
  | ioError
  | formatError
  | rangeError
  | indexError
  | zeroDivisionError
  | fuelOut
deriving Repr, DecidableEq

/-- Python `int.from_bytes(data, byteorder="little")` (the only form the
source uses: unsigned, little-endian).  Embeds `unpack` of `fsstat.py`. -/
def unpack : List Nat → Nat
  | [] => 0
  | b :: rest => b + 256 * unpack rest

/-- One positioned read from the raw image: `seek offset` followed by
`read len`.  Like Python, a read at or past end-of-file returns fewer
bytes (possibly none). -/
def fileRead (img : List Nat) (offset len : Nat) : List Nat :=
  (img.drop offset).take len

/-- The `self.boot` dictionary of `Fat._parse_reserved_sector`: the seven
fields read from the reserved sector plus the five derived fields, in
the types Python gives them (`fat0_sector_end` and `data_end` can be
negative when `sectors_per_fat` or `total_sectors` is 0). -/
structure Boot where
  bytes_per_sector : Nat
  sectors_per_cluster : Nat
  reserved_sectors : Nat
  number_of_fats : Nat
  total_sectors : Nat
  sectors_per_fat : Nat
  root_dir_first_cluster : Nat
  bytes_per_cluster : Nat
  fat0_sector_start : Nat
  fat0_sector_end : Int
  data_start : Nat
  data_end : Int
deriving Repr, DecidableEq

/-- Embeds `Fat._parse_reserved_sector`: the fixed-offset reads, the
derived fields, and the load of FAT copy 0 into `self.fat`.  The source
performs no validation whatsoever, so the function is total: it returns
the boot record together with the loaded FAT buffer. -/
def parseReservedSector (img : List Nat) : Boot × List Nat :=
  let bytes_per_sector := unpack (fileRead img 11 2)
  let sectors_per_cluster := unpack (fileRead img 13 1)
  let reserved_sectors := unpack (fileRead img 14 2)
  let number_of_fats := unpack (fileRead img 16 1)
  let total_sectors := unpack (fileRead img 32 4)
  let sectors_per_fat := unpack (fileRead img 36 4)
  let root_dir_first_cluster := unpack (fileRead img 44 4)
  let bytes_per_cluster := bytes_per_sector * sectors_per_cluster
  let fat0_sector_start := reserved_sectors
  let fat0_sector_end : Int := (fat0_sector_start : Int) + sectors_per_fat - 1
  let data_start := reserved_sectors + sectors_per_fat * number_of_fats
  let data_end : Int := (total_sectors : Int) - 1
  let fat := fileRead img (fat0_sector_start * bytes_per_sector)
      (sectors_per_fat * bytes_per_sector)
  (⟨bytes_per_sector, sectors_per_cluster, reserved_sectors, number_of_fats,
    total_sectors, sectors_per_fat, root_dir_first_cluster, bytes_per_cluster,
    fat0_sector_start, fat0_sector_end, data_start, data_end⟩, fat)

/-- Embeds `Fat._to_sector`: `(cluster - 2) * sectors_per_cluster + data_start`.
The result is an `Int` because clusters 0 and 1 map below `data_start`. -/
def toSector (boot : Boot) (cluster : Nat) : Int :=
  ((cluster : Int) - 2) * boot.sectors_per_cluster + boot.data_start

/-- Embeds `Fat._end_sector`: last sector of a cluster. -/
def endSector (boot : Boot) (cluster : Nat) : Int :=
  toSector boot cluster + boot.sectors_per_cluster - 1

/-- The Python `list(range(self._to_sector(c), self._end_sector(c) + 1))`
appearing in `Fat._get_sectors`: the `sectors_per_cluster` consecutive
sector numbers of one cluster. -/
def clusterRange (boot : Boot) (cluster : Nat) : List Int :=
  (List.range boot.sectors_per_cluster).map
    (fun (i : Nat) => toSector boot cluster + (i : Int))

/-- One FAT lookup as `Fat._get_sectors` performs it:
`unpack(self.fat[number * 4 : number * 4 + 4])`.  A slice reaching past
the end of the buffer is silently short or empty, exactly as in Python. -/
def fatEntry (fat : List Nat) (number : Nat) : Nat :=
  unpack ((fat.drop (number * 4)).take 4)

/-- The `while entry_value <= 0x0FFFFFF8` loop of `Fat._get_sectors`,
with fuel.  Each iteration appends the sector range of the current entry
value and re-reads the FAT at the new byte offset, in source order. -/
def getSectorsLoop (fuel : Nat) (boot : Boot) (fat : List Nat)
    (entryValue : Nat) (acc : List Int) : Except FatErr (List Int) :=
  match fuel with
  | 0 => .error .fuelOut
  | fuel + 1 =>
    if entryValue ≤ 0x0FFFFFF8 then
      getSectorsLoop fuel boot fat (fatEntry fat entryValue)
        (acc ++ clusterRange boot entryValue)
    else
      .ok acc

/-- Embeds `Fat._get_sectors`.  The leading
`assert 0 < (number * 4 + 4) < self.boot["sectors_per_fat"]` is modelled
as a `rangeError`; note it compares the entry byte offset against the
raw `sectors_per_fat` value, exactly as the source does. -/
def getSectors (fuel : Nat) (boot : Boot) (fat : List Nat) (number : Nat) :
    Except FatErr (List Int) :=
  if 0 < number * 4 + 4 ∧ number * 4 + 4 < boot.sectors_per_fat then
    let entryValue := fatEntry fat number
    if entryValue ≠ 0 then
      getSectorsLoop fuel boot fat entryValue (clusterRange boot number)
    else
      .ok []
  else
    .error .rangeError

/-- Embeds `Fat._retrieve_data`: resolves the chain and concatenates the
raw bytes of every listed sector.  The `ignoreUnallocated` parameter is
accepted and then never consulted, faithfully reproducing the source
(whose docstring promises an unallocated-cluster fallback that the body
does not implement).  A negative seek position is a Python `OSError`,
modelled as `ioError`. -/
def retrieveData (fuel : Nat) (img : List Nat) (boot : Boot) (fat : List Nat)
    (cluster : Nat) (ignoreUnallocated : Bool) : Except FatErr (List Nat) := do
  let _ := ignoreUnallocated
  let sectors ← getSectors fuel boot fat cluster
  sectors.foldlM (fun data s =>
    let pos : Int := s * boot.bytes_per_sector
    if pos < 0 then .error .ioError
    else .ok (data ++ fileRead img pos.toNat boot.bytes_per_sector)) []

/-- Embeds `Fat._get_first_cluster`.  Python computes
`max_cluster = total_sectors / sectors_per_cluster` with true division
(a `ZeroDivisionError` when `sectors_per_cluster = 0` is modelled
explicitly); for the integer `content_cluster`,
`content_cluster <= total_sectors / sectors_per_cluster` holds exactly
when `content_cluster * sectors_per_cluster <= total_sectors`, the
kernel-evaluable form used here (`maxClusterGuard_iff` below proves the
equivalence with the division form).  The failing
`assert content_cluster <= max_cluster` is a `rangeError`. -/
def getFirstCluster (boot : Boot) (entry : List Nat) : Except FatErr Nat :=
  let highOrder := unpack ((entry.drop 20).take 2) * 65536
  let lowOrder := unpack ((entry.drop 26).take 2)
  let contentCluster := highOrder + lowOrder
  if boot.sectors_per_cluster = 0 then .error .zeroDivisionError
  else if contentCluster * boot.sectors_per_cluster ≤ boot.total_sectors then
    .ok contentCluster
  else .error .rangeError

/-- The multiplied-out guard of `getFirstCluster` agrees with the
source's division form `content_cluster <= total_sectors / sectors_per_cluster`
whenever the divisor is non-zero. -/
theorem maxClusterGuard_iff (c ts spc : Nat) (h : spc ≠ 0) :
    c * spc ≤ ts ↔ (c : ℚ) ≤ (ts : ℚ) / (spc : ℚ) := by
  rw [le_div_iff₀ (by exact_mod_cast Nat.pos_of_ne_zero h)]
  exact_mod_cast Iff.rfl

/-- Embeds `Fat._get_content`.  The source wraps both results in Python
`str(...)` for display; the underlying byte strings are modelled.  The
second component is `none` exactly in the unallocated branch, where the
source returns `None` for the slack. -/
def getContent (fuel : Nat) (img : List Nat) (boot : Boot) (fat : List Nat)
    (cluster : Nat) (filesize : Nat) :
    Except FatErr (List Nat × Option (List Nat)) := do
  let minSize := min 128 filesize
  let data ← retrieveData fuel img boot fat cluster true
  if data ≠ [] then
    .ok (data.take minSize, some ((data.drop filesize).take 32))
  else
    let pos : Int := toSector boot cluster * boot.bytes_per_sector
    if pos < 0 then .error .ioError
    else .ok (fileRead img pos.toNat minSize, none)

/-- The classification codomain of the external collaborator
`hw4utils.get_entry_type` as the spec names it:
`classify_entry_type(type_tag_byte) -> {vol, lfn, dir, other, empty}`.
`empty` is the terminator classification (`hex(0)` in the source). -/
inductive EntryType where
  | vol
  | lfn
  | dir
  | other
  | empty
deriving Repr, DecidableEq

/-- Modelled from the spec: `hw4utils.get_entry_type`, the external
entry-type classifier, is not under `src/`.  The spec gives only its
codomain `{vol, lfn, dir, other, empty}`; the mapping follows the FAT32
attribute byte the source passes it (offset 11 of the record): 0 is the
terminator, 0x0F the long-file-name marker, the 0x08 bit a volume
label, the 0x10 bit a directory, anything else a regular entry. -/
def getEntryType (tag : Nat) : EntryType :=
  if tag = 0 then .empty
  else if tag = 15 then .lfn
  else if tag &&& 8 ≠ 0 then .vol
  else if tag &&& 16 ≠ 0 then .dir
  else .other

/-- ASCII decode of a byte list. -/
def bytesToString (bs : List Nat) : String :=
  String.mk (bs.map Char.ofNat)

/-- Drop trailing 0x20 padding bytes. -/
def stripTrailingSpaces (bs : List Nat) : List Nat :=
  (bs.reverse.dropWhile (fun b => b = 32)).reverse

/-- Modelled from the spec: `hw4utils.parse_name`
(`decode_display_name`), the external display-name decoder, is not
under `src/`.  It decodes the space-padded 8.3 name field of the
32-byte record: base name from bytes 0-7, extension from bytes 8-10,
joined with a dot when the extension is non-empty. -/
def parseName (entry : List Nat) : String :=
  let base := stripTrailingSpaces (entry.take 8)
  let ext := stripTrailingSpaces ((entry.drop 8).take 3)
  if ext = [] then bytesToString base
  else bytesToString base ++ "." ++ bytesToString ext

/-- One output record of `Fat.parse_dir`.  The first seven fields are
always present; the `Option` fields model the dictionary keys that are
only added on some branches (`slack` is doubly optional: the key may be
absent, or present holding Python `None`). -/
structure DirEntry where
  parent : String
  dir_cluster : Nat
  entry_num : Nat
  dir_sectors : List Int
  entry_type : EntryType
  name : String
  deleted : Bool
  content_cluster : Option Nat
  filesize : Option Nat
  content_sectors : Option (List Int)
  content : Option (List Nat)
  slack : Option (Option (List Nat))
deriving Repr, DecidableEq

/-- Embeds the body of `Fat.parse_dir`, fueled.  The loop state is the
entry counter together with the source's `is_dir` and `is_unallocated`
flags; the loop guard `(not is_dir) or (not is_unallocated)` is checked
exactly as written.  Python's `entry_data[11]` raises `IndexError` on a
short slice; that is the only index access that can fail.  Each loop
iteration contributes, in source order, the recursed entries of a
subdirectory (if any) followed by the entry itself, before the scan of
the current cluster resumes. -/
def parseDirAux (fuel : Nat) (img : List Nat) (boot : Boot) (fat : List Nat)
    (cluster : Nat) (parent : String) (entryNum : Nat)
    (isDir isUnallocated : Bool) : Except FatErr (List DirEntry) :=
  match fuel with
  | 0 => .error .fuelOut
  | fuel + 1 =>
    if (!isDir) || (!isUnallocated) then do
      let fullData ← retrieveData (fuel + 1) img boot fat cluster true
      let entryData := (fullData.drop (32 * entryNum)).take 32
      let dirSectors ← getSectors (fuel + 1) boot fat cluster
      let tag ← match entryData.get? 11 with
        | some t => Except.ok t
        | none => Except.error .indexError
      let entryType := getEntryType tag
      if entryType = .empty then
        .ok []
      else
        let name := parseName entryData
        let deleted := decide (entryData.headD 0 = 0xE5)
        if entryType = .dir ∧ name ≠ "." ∧ name ≠ ".." then do
          let contentCluster ← getFirstCluster boot entryData
          let children ← parseDirAux fuel img boot fat contentCluster
            ("/" ++ name) 0 false false
          let rest ← parseDirAux fuel img boot fat cluster parent
            (entryNum + 1) true isUnallocated
          .ok (children ++
            ⟨parent, cluster, entryNum, dirSectors, entryType, name, deleted,
              some contentCluster, none, none, none, none⟩ :: rest)
        else if entryType ≠ .lfn ∧ entryType ≠ .vol ∧ entryType ≠ .dir then do
          let contentCluster ← getFirstCluster boot entryData
          if contentCluster ≠ 0 then do
            let filesize := unpack ((entryData.drop 28).take 4)
            let content ← getContent (fuel + 1) img boot fat contentCluster filesize
            let contentSectors ← getSectors (fuel + 1) boot fat contentCluster
            let rest ← parseDirAux fuel img boot fat cluster parent
              (entryNum + 1) isDir isUnallocated
            .ok (⟨parent, cluster, entryNum, dirSectors, entryType, name, deleted,
              some contentCluster, some filesize, some contentSectors,
              some content.1, some content.2⟩ :: rest)
          else do
            let rest ← parseDirAux fuel img boot fat cluster parent
              (entryNum + 1) isDir isUnallocated
            .ok (⟨parent, cluster, entryNum, dirSectors, entryType, name, deleted,
              some contentCluster, none, none, none, none⟩ :: rest)
        else do
          let rest ← parseDirAux fuel img boot fat cluster parent
            (entryNum + 1) isDir isUnallocated
          .ok (⟨parent, cluster, entryNum, dirSectors, entryType, name, deleted,
            none, none, none, none, none⟩ :: rest)
    else
      .ok []

/-- Embeds `Fat.parse_dir(cluster, parent)`: the loop starts at entry 0
with both flags `False`. -/
def parseDir (fuel : Nat) (img : List Nat) (boot : Boot) (fat : List Nat)
    (cluster : Nat) (parent : String) : Except FatErr (List DirEntry) :=
  parseDirAux fuel img boot fat cluster parent 0 false false

/-- A second definition following the spec's words for the walk loop
(for comparison with the source-faithful `parseDirAux`): "Stop the scan
when decode signals the terminator tag — that is the sole loop-exit
condition."  Identical to `parseDirAux` except that the loop has no
flag state and no guard: only the terminator classification (or fuel
exhaustion) ends the scan. -/
def parseDirSpecAux (fuel : Nat) (img : List Nat) (boot : Boot) (fat : List Nat)
    (cluster : Nat) (parent : String) (entryNum : Nat) :
    Except FatErr (List DirEntry) :=
  match fuel with
  | 0 => .error .fuelOut
  | fuel + 1 => do
    let fullData ← retrieveData (fuel + 1) img boot fat cluster true
    let entryData := (fullData.drop (32 * entryNum)).take 32
    let dirSectors ← getSectors (fuel + 1) boot fat cluster
    let tag ← match entryData.get? 11 with
      | some t => Except.ok t
      | none => Except.error .indexError
    let entryType := getEntryType tag
    if entryType = .empty then
      .ok []
    else
      let name := parseName entryData
      let deleted := decide (entryData.headD 0 = 0xE5)
      if entryType = .dir ∧ name ≠ "." ∧ name ≠ ".." then do
        let contentCluster ← getFirstCluster boot entryData
        let children ← parseDirSpecAux fuel img boot fat contentCluster
          ("/" ++ name) 0
        let rest ← parseDirSpecAux fuel img boot fat cluster parent (entryNum + 1)
        .ok (children ++
          ⟨parent, cluster, entryNum, dirSectors, entryType, name, deleted,
            some contentCluster, none, none, none, none⟩ :: rest)
      else if entryType ≠ .lfn ∧ entryType ≠ .vol ∧ entryType ≠ .dir then do
        let contentCluster ← getFirstCluster boot entryData
        if contentCluster ≠ 0 then do
          let filesize := unpack ((entryData.drop 28).take 4)
          let content ← getContent (fuel + 1) img boot fat contentCluster filesize
          let contentSectors ← getSectors (fuel + 1) boot fat contentCluster
          let rest ← parseDirSpecAux fuel img boot fat cluster parent (entryNum + 1)
          .ok (⟨parent, cluster, entryNum, dirSectors, entryType, name, deleted,
            some contentCluster, some filesize, some contentSectors,
            some content.1, some content.2⟩ :: rest)
        else do
          let rest ← parseDirSpecAux fuel img boot fat cluster parent (entryNum + 1)
          .ok (⟨parent, cluster, entryNum, dirSectors, entryType, name, deleted,
            some contentCluster, none, none, none, none⟩ :: rest)
      else do
        let rest ← parseDirSpecAux fuel img boot fat cluster parent (entryNum + 1)
        .ok (⟨parent, cluster, entryNum, dirSectors, entryType, name, deleted,
          none, none, none, none, none⟩ :: rest)

/-- The entry enumeration `Fat.info` performs after construction: parse
the reserved sector, then walk from `root_dir_first_cluster`. -/
def infoEntries (fuel : Nat) (img : List Nat) : Except FatErr (List DirEntry) :=
  let parsed := parseReservedSector img
  parseDir fuel img parsed.1 parsed.2 parsed.1.root_dir_first_cluster ""

/-- Zero padding. -/
def zeros (n : Nat) : List Nat := List.replicate n 0

/-- A 32-byte all-zero directory record: its type-tag byte (offset 11)
is 0, the terminator. -/
def term32 : List Nat := zeros 32

/-- Concrete image `imgC1`: geometry bytes_per_sector=32,
sectors_per_cluster=1, reserved_sectors=2, number_of_fats=1,
total_sectors=100, sectors_per_fat=20, root=2, with an all-zero FAT, so
every cluster's FAT entry is 0 (unallocated). -/
def imgC1 : List Nat :=
  zeros 11 ++ [32, 0] ++ [1] ++ [2, 0] ++ [1] ++ zeros 15 ++
    [100, 0, 0, 0] ++ [20, 0, 0, 0] ++ zeros 4 ++ [2, 0, 0, 0] ++ zeros 720

/-- Boot record parsed from `imgC1`. -/
def bootC1 : Boot := (parseReservedSector imgC1).1

/-- FAT buffer loaded from `imgC1`. -/
def fatC1 : List Nat := (parseReservedSector imgC1).2

/-- Modelled from the spec: the `ignore_unallocated=true` fallback that
`Fat._retrieve_data`'s own docstring and the spec describe but its body
does not implement — read exactly one cluster's raw bytes
(`bytes_per_sector * sectors_per_cluster` of them) directly at
`sector_of(cluster_number)`. -/
def readChainSpecUnalloc (img : List Nat) (boot : Boot) (cluster : Nat) :
    List Nat :=
  fileRead img (toSector boot cluster * boot.bytes_per_sector).toNat
    (boot.bytes_per_sector * boot.sectors_per_cluster)

/-- Concrete image `imgC2`: plausible geometry except
`sectors_per_fat = 0` (degenerate).  bytes_per_sector=512, spc=1,
reserved=32, fats=1, total_sectors=1000, root=2. -/
def imgC2 : List Nat :=
  zeros 11 ++ [0, 2] ++ [1] ++ [32, 0] ++ [1] ++ zeros 15 ++
    [232, 3, 0, 0] ++ [0, 0, 0, 0] ++ zeros 4 ++ [2, 0, 0, 0]

/-- Concrete image `imgC5`: exactly the geometry of the spec's
Scenario A — bytes_per_sector=512, sectors_per_cluster=1,
reserved_sectors=32, number_of_fats=1, sectors_per_fat=8,
root_dir_first_cluster=2 (total_sectors, unstated there, is 1000). -/
def imgC5 : List Nat :=
  zeros 11 ++ [0, 2] ++ [1] ++ [32, 0] ++ [1] ++ zeros 15 ++
    [232, 3, 0, 0] ++ [8, 0, 0, 0] ++ zeros 4 ++ [2, 0, 0, 0]

/-- Directory record for subdirectory "SUB" with content cluster 4
(name bytes space-padded, tag 0x10 = directory). -/
def entrySUB : List Nat :=
  [83, 85, 66, 32, 32, 32, 32, 32, 32, 32, 32] ++ [16] ++ zeros 8 ++
    [0, 0] ++ zeros 4 ++ [4, 0] ++ zeros 4

/-- Directory record for subdirectory "SUB2" with content cluster 6. -/
def entrySUB2 : List Nat :=
  [83, 85, 66, 50, 32, 32, 32, 32, 32, 32, 32] ++ [16] ++ zeros 8 ++
    [0, 0] ++ zeros 4 ++ [6, 0] ++ zeros 4

/-- Directory record for regular entry "X" with content cluster 0
(tag 0x20, classified `other`). -/
def entryX : List Nat :=
  [88, 32, 32, 32, 32, 32, 32, 32, 32, 32, 32] ++ [32] ++ zeros 8 ++
    [0, 0] ++ zeros 4 ++ [0, 0] ++ zeros 4

/-- Concrete image `imgC3`, a two-level nesting:
geometry bytes_per_sector=32, sectors_per_cluster=1, reserved_sectors=2,
number_of_fats=1, total_sectors=100, sectors_per_fat=29, root=2
(data_start = 31).  FAT: 2→3 (root chain), 3,5,7 end-of-chain, 4→5
("SUB" chain), 6→7 ("SUB2" chain).  Cluster contents: 2 = "SUB" record,
4 = "SUB2" record, 6 = "X" record, 3/5/7 = terminators. -/
def imgC3 : List Nat :=
  zeros 11 ++ [32, 0] ++ [1] ++ [2, 0] ++ [1] ++ zeros 15 ++
    [100, 0, 0, 0] ++ [29, 0, 0, 0] ++ zeros 4 ++ [2, 0, 0, 0] ++
    zeros 16 ++
    (zeros 8 ++ [3, 0, 0, 0] ++ [255, 255, 255, 15] ++ [5, 0, 0, 0] ++
      [255, 255, 255, 15] ++ [7, 0, 0, 0] ++ [255, 255, 255, 15] ++
      zeros 896) ++
    entrySUB ++ term32 ++ entrySUB2 ++ term32 ++ entryX ++ term32

/-- Boot record parsed from `imgC3`. -/
def bootC3 : Boot := (parseReservedSector imgC3).1

/-- FAT buffer loaded from `imgC3`. -/
def fatC3 : List Nat := (parseReservedSector imgC3).2

/-- Directory record for file "A.TXT", content cluster 5, filesize 5. -/
def entryATXT : List Nat :=
  [65, 32, 32, 32, 32, 32, 32, 32, 84, 88, 84] ++ [32] ++ zeros 8 ++
    [0, 0] ++ zeros 4 ++ [5, 0] ++ [5, 0, 0, 0]

/-- Directory record for regular entry "B" with content cluster 0. -/
def entryB : List Nat :=
  [66, 32, 32, 32, 32, 32, 32, 32, 32, 32, 32] ++ [32] ++ zeros 8 ++
    [0, 0] ++ zeros 4 ++ [0, 0] ++ zeros 4

/-- Concrete image `imgA`, shaped like the spec's Scenario A but with a
geometry whose FAT bound admits the clusters in use:
bytes_per_sector=64, sectors_per_cluster=1, reserved_sectors=1,
number_of_fats=1, total_sectors=100, sectors_per_fat=25, root=2
(data_start = 26).  The root directory (chain 2→3) holds a "SUB"
directory record (content cluster 4, containing one record "B") and an
"A.TXT" file record (content cluster 5, filesize 5, content "hello"). -/
def imgA : List Nat :=
  zeros 11 ++ [64, 0] ++ [1] ++ [1, 0] ++ [1] ++ zeros 15 ++
    [100, 0, 0, 0] ++ [25, 0, 0, 0] ++ zeros 4 ++ [2, 0, 0, 0] ++
    zeros 16 ++
    (zeros 8 ++ [3, 0, 0, 0] ++ [255, 255, 255, 15] ++ [255, 255, 255, 15] ++
      [255, 255, 255, 15] ++ zeros 1576) ++
    (entrySUB ++ entryATXT) ++
    zeros 64 ++
    (entryB ++ term32) ++
    ([104, 101, 108, 108, 111] ++ zeros 59)

/-- Boot record parsed from `imgA`. -/
def bootA : Boot := (parseReservedSector imgA).1

/-- FAT buffer loaded from `imgA`. -/
def fatA : List Nat := (parseReservedSector imgA).2

/-- Concrete boot record for the FAT-overrun scenario: geometry
bytes_per_sector=16, sectors_per_cluster=1, reserved_sectors=2,
number_of_fats=1, total_sectors=1000, sectors_per_fat=30
(data_start = 32). -/
def bootC10 : Boot := ⟨16, 1, 2, 1, 1000, 30, 2, 16, 2, 31, 32, 999⟩

/-- Concrete 480-byte FAT buffer whose entry for cluster 2 names cluster
200; the 4-byte entry of cluster 200 would start at byte 800, past the
end of the buffer.  Entry 0 holds an end-of-chain marker. -/
def fatC10 : List Nat :=
  [255, 255, 255, 15] ++ zeros 4 ++ [200, 0, 0, 0] ++ zeros 468

deriving instance DecidableEq for Except

set_option maxRecDepth 100000

/-- Projection of a walk result to (name, parent) pairs, for stating
concrete walk outcomes compactly. -/
def walkNamesParents (r : Except FatErr (List DirEntry)) :
    Option (List (String × String)) :=
  r.toOption.map (fun l => l.map (fun e => (e.name, e.parent)))

/-- C1: read_chain (`Fat._retrieve_data`) on an unallocated cluster
(FAT entry 0) with `ignore_unallocated=false` returns zero bytes — but,
contrary to the claim, with `ignore_unallocated=true` it also returns
zero bytes: the parameter is accepted and never consulted, so the
single-cluster fallback at `sector_of(cluster_number)` that the source's
own docstring and the spec describe (modelled by `readChainSpecUnalloc`,
which here yields the full 32-byte cluster) never happens.  Concretely
on `imgC1`: cluster 2 is within the resolve_chain bound, its FAT entry
is 0, and both calls return the empty byte string. -/
theorem c1_retrieve_data_ignores_unallocated_flag :
    retrieveData 5 imgC1 bootC1 fatC1 2 true = .ok [] ∧
    retrieveData 5 imgC1 bootC1 fatC1 2 false = .ok [] ∧
    readChainSpecUnalloc imgC1 bootC1 2 = zeros 32 ∧
    bootC1.bytes_per_sector * bootC1.sectors_per_cluster = 32 ∧
    fatEntry fatC1 2 = 0 ∧
    0 < 2 * 4 + 4 ∧ 2 * 4 + 4 < bootC1.sectors_per_fat := by
  decide

/-- C2 counterexample: on `imgC2`, whose boot sector yields
`sectors_per_fat = 0`, parsing the reserved sector completes without any
error (the source performs no geometry validation and no `FormatError`
exists anywhere in it), and the subsequent enumeration performed by
`Fat.info` fails with a `rangeError` (the `assert` in
`Fat._get_sectors`), not a `formatError`: the failure arises inside the
directory walk, not before it. -/
theorem c2_counterexample_no_format_error :
    (parseReservedSector imgC2).1.sectors_per_fat = 0 ∧
    (parseReservedSector imgC2).1.bytes_per_sector = 512 ∧
    (parseReservedSector imgC2).1.total_sectors = 1000 ∧
    infoEntries 5 imgC2 = .error .rangeError ∧
    FatErr.rangeError ≠ FatErr.formatError := by
  decide

/-- C2 (amended): degenerate geometry is not detected while parsing the
reserved sector (which always succeeds); instead, when
`sectors_per_fat = 0`, the very first chain resolution of the directory
walk fails with a `rangeError` (failed `assert` in `Fat._get_sectors`),
for every image, cluster and parent path, so no directory entry is ever
enumerated. -/
theorem c2_amended_spf_zero_walk_fails (fuel : Nat) (img : List Nat)
    (boot : Boot) (fat : List Nat) (cluster : Nat) (parent : String)
    (hspf : boot.sectors_per_fat = 0) (hfuel : 0 < fuel) :
    parseDir fuel img boot fat cluster parent = .error .rangeError := by
  obtain ⟨f, rfl⟩ := Nat.exists_eq_succ_of_ne_zero (Nat.pos_iff_ne_zero.mp hfuel)
  unfold parseDir parseDirAux retrieveData getSectors
  simp [hspf, Bind.bind, Except.bind]

/-- Witness for C2 (amended) at the concrete image `imgC2`. -/
theorem c2_amended_witness :
    (parseReservedSector imgC2).1.sectors_per_fat = 0 ∧ 0 < 5 ∧
    parseDir 5 imgC2 (parseReservedSector imgC2).1 (parseReservedSector imgC2).2
      2 "" = .error .rangeError :=
  ⟨by decide, by decide,
    c2_amended_spf_zero_walk_fails 5 imgC2 (parseReservedSector imgC2).1
      (parseReservedSector imgC2).2 2 "" (by decide) (by decide)⟩

/-- C3 counterexample: walking `imgC3` from the root, the entry "X"
that lives two levels deep (root → "SUB" → "SUB2" → "X") is reported
with parent `"/SUB2"`, whereas recursing with
`parent_path + "/" + name` as the claim states would give it parent
`"/SUB" ++ "/" ++ "SUB2" = "/SUB/SUB2"`: the walker drops the ancestor
prefix. -/
theorem c3_counterexample_parent_path_dropped :
    walkNamesParents (parseDir 20 imgC3 bootC3 fatC3 2 "") =
      some [("X", "/SUB2"), ("SUB2", "/SUB"), ("SUB", "")] ∧
    ("/SUB2" : String) ≠ "/SUB" ++ "/" ++ "SUB2" := by
  decide

/-- C4 counterexample: walking `imgA` (a Scenario-A-shaped image whose
geometry satisfies the FAT bound), the output is
`[("B", "/SUB"), ("SUB", ""), ("A.TXT", "")]`: the entry "B", produced
by recursing into the directory entry "SUB", precedes "SUB" in the
output — the walker appends recursed entries before the entry itself,
not after it as the claim states. -/
theorem c4_counterexample_children_first :
    walkNamesParents (parseDir 20 imgA bootA fatA 2 "") =
      some [("B", "/SUB"), ("SUB", ""), ("A.TXT", "")] := by
  decide

/-- C5 counterexample: on `imgC5`, which carries exactly Scenario A's
stated geometry (bytes_per_sector=512, sectors_per_cluster=1,
reserved_sectors=32, number_of_fats=1, sectors_per_fat=8, root=2), the
walk from cluster 2 fails immediately with a `rangeError`: the root
cluster's entry byte offset 2×4+4 = 12 is not below sectors_per_fat = 8,
so Scenario A yields no "A.TXT" entry (and no content) at all. -/
theorem c5_counterexample_scenario_a_geometry_fails :
    (parseReservedSector imgC5).1.sectors_per_fat = 8 ∧
    (parseReservedSector imgC5).1.bytes_per_sector = 512 ∧
    (parseReservedSector imgC5).1.sectors_per_cluster = 1 ∧
    (parseReservedSector imgC5).1.reserved_sectors = 32 ∧
    (parseReservedSector imgC5).1.number_of_fats = 1 ∧
    (parseReservedSector imgC5).1.root_dir_first_cluster = 2 ∧
    ¬ (2 * 4 + 4 < (parseReservedSector imgC5).1.sectors_per_fat) ∧
    parseDir 20 imgC5 (parseReservedSector imgC5).1
      (parseReservedSector imgC5).2 2 "" = .error .rangeError := by
  decide

/-- C10: only the initial cluster is bound-checked.  On `bootC10` /
`fatC10`, cluster 2's FAT entry names cluster 200, whose 4-byte entry
would start at byte 800 — past the 480-byte FAT buffer.  The unchecked
slice is empty, unpacks to 0, and the loop follows it as cluster 0
(whose sector range `[30]` duly appears in the output) instead of
raising `rangeError`: the call succeeds. -/
theorem c10_unchecked_chain_lookup_yields_cluster_zero :
    getSectors 10 bootC10 fatC10 2 = .ok [32, 230, 30] ∧
    fatC10.length = 480 ∧
    fatC10.length < 200 * 4 + 4 ∧
    fatEntry fatC10 2 = 200 ∧
    ((fatC10.drop (200 * 4)).take 4 = [] ∧ fatEntry fatC10 200 = 0) ∧
    clusterRange bootC10 0 = [30] ∧
    0x0FFFFFF8 < fatEntry fatC10 0 := by
  decide

/-- The chain-following loop of `Fat._get_sectors` raises no error of
its own: it can only return a sector list or run out of fuel. -/
theorem getSectorsLoop_ne_rangeError (fuel : Nat) (boot : Boot)
    (fat : List Nat) : ∀ e acc,
    getSectorsLoop fuel boot fat e acc ≠ Except.error .rangeError := by
  induction fuel with
  | zero => intro e acc h; simp [getSectorsLoop] at h
  | succ f ih =>
    intro e acc
    unfold getSectorsLoop
    by_cases hcond : e ≤ 0x0FFFFFF8
    · simpa [hcond] using ih (fatEntry fat e) (acc ++ clusterRange boot e)
    · simp [hcond]

/-- C8: `Fat._get_sectors` (resolve_chain) fails with `rangeError`
exactly when its written precondition
`0 < cluster_number * 4 + 4 < sectors_per_fat` is violated — the bound
compares the entry byte offset against the raw `sectors_per_fat` field
itself (not the FAT byte size `sectors_per_fat * bytes_per_sector`, nor
a cluster count), for every fuel, geometry, FAT buffer and cluster
number. -/
theorem c8_resolve_chain_bound (fuel : Nat) (boot : Boot) (fat : List Nat)
    (number : Nat) :
    getSectors fuel boot fat number = .error .rangeError ↔
      ¬ (0 < number * 4 + 4 ∧ number * 4 + 4 < boot.sectors_per_fat) := by
  unfold getSectors
  by_cases h : 0 < number * 4 + 4 ∧ number * 4 + 4 < boot.sectors_per_fat
  · simp only [if_pos h, h, not_true_eq_false, iff_false]
    by_cases hz : fatEntry fat number ≠ 0
    · simpa [hz] using getSectorsLoop_ne_rangeError fuel boot fat
        (fatEntry fat number) (clusterRange boot number)
    · simp [hz]
  · rw [if_neg h]
    exact iff_of_true rfl h

/-- A little-endian unpack of a byte list is bounded by 256 to its
length. -/
theorem unpack_lt (l : List Nat) (h : ∀ b ∈ l, b < 256) :
    unpack l < 256 ^ l.length := by
  induction l with
  | nil => simp [unpack]
  | cons b rest ih =>
    have hb : b < 256 := h b (List.mem_cons_self b rest)
    have hu : unpack rest < 256 ^ rest.length :=
      ih (fun x hx => h x (List.mem_cons_of_mem b hx))
    have : unpack (b :: rest) = b + 256 * unpack rest := rfl
    rw [this, List.length_cons, pow_succ, Nat.mul_comm (256 ^ rest.length) 256]
    omega

/-- C7: directory-entry decode (`Fat._get_first_cluster`) computes
`content_cluster = (high16 <<< 16) ||| low16` with `high16` the
little-endian 16-bit value at byte offset 20 and `low16` the one at
offset 26, succeeds when it does not exceed
`total_sectors / sectors_per_cluster` (exact division), and fails with
`rangeError` when it does.  Requires the entry to consist of byte
values and a non-zero `sectors_per_cluster` (Python would raise
`ZeroDivisionError` otherwise). -/
theorem c7_content_cluster_decode (boot : Boot) (entry : List Nat)
    (hbytes : ∀ b ∈ entry, b < 256)
    (hspc : boot.sectors_per_cluster ≠ 0) :
    let c := unpack ((entry.drop 20).take 2) <<< 16 ||| unpack ((entry.drop 26).take 2)
    ((c : ℚ) ≤ (boot.total_sectors : ℚ) / (boot.sectors_per_cluster : ℚ) →
      getFirstCluster boot entry = .ok c) ∧
    (¬ ((c : ℚ) ≤ (boot.total_sectors : ℚ) / (boot.sectors_per_cluster : ℚ)) →
      getFirstCluster boot entry = .error .rangeError) := by
  intro c
  have hlow : unpack ((entry.drop 26).take 2) < 65536 := by
    have hlt := unpack_lt ((entry.drop 26).take 2) (fun b hb =>
      hbytes b (List.drop_subset 26 entry (List.take_subset 2 _ hb)))
    calc unpack ((entry.drop 26).take 2)
        < 256 ^ ((entry.drop 26).take 2).length := hlt
      _ ≤ 256 ^ 2 := Nat.pow_le_pow_right (by omega)
          (le_trans (List.length_take_le 2 _) (le_refl 2))
      _ = 65536 := by norm_num
  have hc : c = unpack ((entry.drop 20).take 2) * 65536 +
      unpack ((entry.drop 26).take 2) := by
    show _ <<< 16 ||| _ = _
    have h2 : unpack ((entry.drop 26).take 2) < 2 ^ 16 := hlow
    rw [Nat.shiftLeft_eq, Nat.mul_comm, ← Nat.mul_add_lt_is_or h2]
  constructor
  · intro hle
    unfold getFirstCluster
    rw [if_neg hspc, if_pos]
    · rw [hc]
    · rw [maxClusterGuard_iff _ _ _ hspc, ← hc]; exact hle
  · intro hgt
    unfold getFirstCluster
    rw [if_neg hspc, if_neg]
    rw [maxClusterGuard_iff _ _ _ hspc, ← hc]; exact hgt

/-- Concrete geometry for the C7 witness (total_sectors = 100000,
sectors_per_cluster = 1). -/
def bootC7 : Boot := ⟨512, 1, 32, 1, 100000, 64, 2, 512, 32, 95, 96, 99999⟩

/-- Concrete 32-byte record with high16 = 0x0001 at offset 20 and
low16 = 0x0002 at offset 26. -/
def entryC7 : List Nat := zeros 20 ++ [1, 0] ++ zeros 4 ++ [2, 0] ++ zeros 4

/-- Witness for C7: `entryC7` decodes to content_cluster
1 <<< 16 ||| 2 = 65538, accepted under `bootC7`. -/
theorem c7_witness : getFirstCluster bootC7 entryC7 = .ok 65538 := by
  have h := (c7_content_cluster_decode bootC7 entryC7 (by decide) (by decide)).1
  have hc : unpack ((entryC7.drop 20).take 2) <<< 16 |||
      unpack ((entryC7.drop 26).take 2) = 65538 := by decide
  rw [hc] at h
  apply h
  show (65538 : ℚ) ≤ (bootC7.total_sectors : ℚ) / (bootC7.sectors_per_cluster : ℚ)
  norm_num [bootC7]

/-- C5 (amended): whenever the cluster chain read succeeds with a
non-empty buffer, `Fat._get_content` returns as content the first
`min(128, filesize)` bytes of the raw concatenated chain buffer, and as
slack the 32 bytes of that same buffer starting at byte offset
`filesize` (clamped near the buffer end), for every image, geometry,
FAT, cluster and filesize. -/
theorem c5_amended_content_and_slack (fuel : Nat) (img : List Nat)
    (boot : Boot) (fat : List Nat) (cluster filesize : Nat) (data : List Nat)
    (hdata : retrieveData fuel img boot fat cluster true = .ok data)
    (hne : data ≠ []) :
    getContent fuel img boot fat cluster filesize =
      .ok (data.take (min 128 filesize), some ((data.drop filesize).take 32)) := by
  unfold getContent
  rw [hdata]
  simp [Bind.bind, Except.bind, hne]

/-- Witness for C5 (amended) on `imgA`: the "A.TXT" content cluster 5
with filesize 5 yields content bytes "hello" and a 32-byte slack. -/
theorem c5_amended_witness :
    getContent 20 imgA bootA fatA 5 5 =
      .ok ([104, 101, 108, 108, 111], some (zeros 32)) := by
  have h := c5_amended_content_and_slack 20 imgA bootA fatA 5 5
    ([104, 101, 108, 108, 111] ++ zeros 59) (by decide) (by decide)
  rw [h]
  decide

/-- C9: the scan loop of `Fat.parse_dir` exits only on the terminator
classification.  The faithful loop (guard `(not is_dir) or
(not is_unallocated)`, with the flag updates of the source) coincides,
for every fuel, image, geometry, FAT, cluster, parent, entry counter
and `is_dir` value, with `parseDirSpecAux`, the loop that has no flags
and no guard and whose only exits are the terminator tag (or fuel):
since `is_unallocated` is never set, the guard never ends the scan. -/
theorem c9_terminator_sole_exit (fuel : Nat) (img : List Nat) (boot : Boot)
    (fat : List Nat) : ∀ (cluster : Nat) (parent : String) (entryNum : Nat)
    (isDir : Bool),
    parseDirAux fuel img boot fat cluster parent entryNum isDir false =
      parseDirSpecAux fuel img boot fat cluster parent entryNum := by
  induction fuel with
  | zero => intro c p n d; rfl
  | succ f ih =>
    intro c p n d
    unfold parseDirAux parseDirSpecAux
    simp only [Bool.not_false, Bool.or_true, if_true, ih]

/-- Unfolding of one `Fat.parse_dir` loop iteration at a subdirectory
entry (shared by the walk-structure theorems): when the 32-byte slice at
the current entry number classifies as a directory whose name is
neither "." nor "..", the iteration recurses with parent path
`"/" ++ name`, and contributes the recursed entries followed by the
entry record, before the scan continues at the next entry number. -/
theorem parseDirAux_dir_step (f : Nat) (img : List Nat) (boot : Boot)
    (fat : List Nat) (cluster : Nat) (parent : String) (n : Nat) (d : Bool)
    (full : List Nat) (secs : List Int) (tag cc : Nat)
    (hfull : retrieveData (f + 1) img boot fat cluster true = .ok full)
    (hsecs : getSectors (f + 1) boot fat cluster = .ok secs)
    (htag : ((full.drop (32 * n)).take 32).get? 11 = some tag)
    (het : getEntryType tag = .dir)
    (hdot1 : parseName ((full.drop (32 * n)).take 32) ≠ ".")
    (hdot2 : parseName ((full.drop (32 * n)).take 32) ≠ "..")
    (hcc : getFirstCluster boot ((full.drop (32 * n)).take 32) = .ok cc) :
    parseDirAux (f + 1) img boot fat cluster parent n d false = (do
      let children ← parseDirAux f img boot fat cc
        ("/" ++ parseName ((full.drop (32 * n)).take 32)) 0 false false
      let rest ← parseDirAux f img boot fat cluster parent (n + 1) true false
      Except.ok (children ++
        ⟨parent, cluster, n, secs, .dir,
          parseName ((full.drop (32 * n)).take 32),
          decide (((full.drop (32 * n)).take 32).headD 0 = 0xE5),
          some cc, none, none, none, none⟩ :: rest)) := by
  conv_lhs => rw [parseDirAux]
  simp only [Bool.not_false, Bool.or_true, if_true, hfull, hsecs, htag, het,
    hcc, Bind.bind, Except.bind, hdot1, hdot2, ne_eq, not_false_iff,
    reduceCtorEq, if_false, and_true, true_and, eq_self_iff_true,
    if_true, not_false_eq_true]

/-- C3 (amended): when `Fat.parse_dir` meets a Directory-type entry
whose name is neither "." nor "..", it recurses with the child parent
path `"/" ++ name` — the name of the immediate parent only, with the
incoming `parent_path` discarded — so entries at nesting depth two or
more do not carry the full ancestor path. -/
theorem c3_amended_recursion_parent (f : Nat) (img : List Nat) (boot : Boot)
    (fat : List Nat) (cluster : Nat) (parent : String) (n : Nat) (d : Bool)
    (full : List Nat) (secs : List Int) (tag cc : Nat)
    (hfull : retrieveData (f + 1) img boot fat cluster true = .ok full)
    (hsecs : getSectors (f + 1) boot fat cluster = .ok secs)
    (htag : ((full.drop (32 * n)).take 32).get? 11 = some tag)
    (het : getEntryType tag = .dir)
    (hdot1 : parseName ((full.drop (32 * n)).take 32) ≠ ".")
    (hdot2 : parseName ((full.drop (32 * n)).take 32) ≠ "..")
    (hcc : getFirstCluster boot ((full.drop (32 * n)).take 32) = .ok cc) :
    parseDirAux (f + 1) img boot fat cluster parent n d false = (do
      let children ← parseDirAux f img boot fat cc
        ("/" ++ parseName ((full.drop (32 * n)).take 32)) 0 false false
      let rest ← parseDirAux f img boot fat cluster parent (n + 1) true false
      Except.ok (children ++
        ⟨parent, cluster, n, secs, .dir,
          parseName ((full.drop (32 * n)).take 32),
          decide (((full.drop (32 * n)).take 32).headD 0 = 0xE5),
          some cc, none, none, none, none⟩ :: rest)) :=
  parseDirAux_dir_step f img boot fat cluster parent n d full secs tag cc
    hfull hsecs htag het hdot1 hdot2 hcc

/-- Witness for C3 (amended), at the "SUB2" step of `imgC3`: scanning
cluster 4 with incoming parent path "/SUB", the walker recurses into
cluster 6 with parent path "/SUB2" (not "/SUB/SUB2"). -/
theorem c3_amended_witness :
    parseDirAux 19 imgC3 bootC3 fatC3 4 "/SUB" 0 false false = (do
      let children ← parseDirAux 18 imgC3 bootC3 fatC3 6 "/SUB2" 0 false false
      let rest ← parseDirAux 18 imgC3 bootC3 fatC3 4 "/SUB" 1 true false
      Except.ok (children ++
        ⟨"/SUB", 4, 0, [33, 34], .dir, "SUB2", false, some 6,
          none, none, none, none⟩ :: rest)) := by
  have h := c3_amended_recursion_parent 18 imgC3 bootC3 fatC3 4 "/SUB" 0 false
    (entrySUB2 ++ term32) [33, 34] 16 6 (by decide) (by decide) (by decide)
    (by decide) (by decide) (by decide) (by decide)
  exact h.trans (by decide)

/-- C4 (amended): in the ordered output of the walk, every
non-terminator Directory-type entry is appended after the entries
produced by recursing into it: the iteration's contribution is the
recursed entries, then the entry record, then the rest of the scan. -/
theorem c4_amended_children_precede_entry (f : Nat) (img : List Nat)
    (boot : Boot) (fat : List Nat) (cluster : Nat) (parent : String) (n : Nat)
    (d : Bool) (full : List Nat) (secs : List Int) (tag cc : Nat)
    (children rest : List DirEntry)
    (hfull : retrieveData (f + 1) img boot fat cluster true = .ok full)
    (hsecs : getSectors (f + 1) boot fat cluster = .ok secs)
    (htag : ((full.drop (32 * n)).take 32).get? 11 = some tag)
    (het : getEntryType tag = .dir)
    (hdot1 : parseName ((full.drop (32 * n)).take 32) ≠ ".")
    (hdot2 : parseName ((full.drop (32 * n)).take 32) ≠ "..")
    (hcc : getFirstCluster boot ((full.drop (32 * n)).take 32) = .ok cc)
    (hchildren : parseDirAux f img boot fat cc
      ("/" ++ parseName ((full.drop (32 * n)).take 32)) 0 false false =
        .ok children)
    (hrest : parseDirAux f img boot fat cluster parent (n + 1) true false =
      .ok rest) :
    parseDirAux (f + 1) img boot fat cluster parent n d false =
      .ok (children ++
        ⟨parent, cluster, n, secs, .dir,
          parseName ((full.drop (32 * n)).take 32),
          decide (((full.drop (32 * n)).take 32).headD 0 = 0xE5),
          some cc, none, none, none, none⟩ :: rest) := by
  rw [parseDirAux_dir_step f img boot fat cluster parent n d full secs tag cc
    hfull hsecs htag het hdot1 hdot2 hcc]
  rw [hchildren]
  simp only [Bind.bind, Except.bind]
  rw [hrest]

/-- Witness for C4 (amended), at the root step of `imgA`: the output of
the root scan is the recursed entry "B" of cluster 4, then the "SUB"
record itself, then "A.TXT". -/
theorem c4_amended_witness :
    parseDirAux 19 imgA bootA fatA 2 "" 0 false false =
      .ok ([⟨"/SUB", 4, 0, [28], .other, "B", false, some 0,
          none, none, none, none⟩] ++
        ⟨"", 2, 0, [26, 27], .dir, "SUB", false, some 4,
          none, none, none, none⟩ ::
        [⟨"", 2, 1, [26, 27], .other, "A.TXT", false, some 5, some 5,
          some [29], some [104, 101, 108, 108, 111],
          some (some (zeros 32))⟩]) := by
  have h := c4_amended_children_precede_entry 18 imgA bootA fatA 2 "" 0 false
    (entrySUB ++ entryATXT ++ zeros 64) [26, 27] 16 4
    [⟨"/SUB", 4, 0, [28], .other, "B", false, some 0, none, none, none, none⟩]
    [⟨"", 2, 1, [26, 27], .other, "A.TXT", false, some 5, some 5, some [29],
      some [104, 101, 108, 108, 111], some (some (zeros 32))⟩]
    (by decide) (by decide) (by decide) (by decide) (by decide) (by decide)
    (by decide) (by decide) (by decide)
  exact h.trans (by decide)


/-- Each cluster contributes exactly `sectors_per_cluster` sector
numbers. -/
theorem clusterRange_length (boot : Boot) (c : Nat) :
    (clusterRange boot c).length = boot.sectors_per_cluster := by
  simp [clusterRange]

/-- The concatenated ranges of a cluster list have length
`k * sectors_per_cluster`. -/
theorem flatMap_clusterRange_length (boot : Boot) (cs : List Nat) :
    (cs.flatMap (clusterRange boot)).length =
      cs.length * boot.sectors_per_cluster := by
  induction cs with
  | nil => simp
  | cons c rest ih =>
    simp only [List.flatMap_cons, List.length_append, ih,
      clusterRange_length, List.length_cons]
    ring

/-- The sector ranges of two distinct clusters are disjoint. -/
theorem clusterRange_disjoint (boot : Boot) {c d : Nat} (hcd : c ≠ d) :
    ∀ x ∈ clusterRange boot c, x ∉ clusterRange boot d := by
  intro x hxc hxd
  simp only [clusterRange, List.mem_map, List.mem_range] at hxc hxd
  obtain ⟨i, hi, hxi⟩ := hxc
  obtain ⟨j, hj, hxj⟩ := hxd
  have hspos : 0 < boot.sectors_per_cluster := by omega
  have heq : toSector boot c + (i : Int) = toSector boot d + (j : Int) := by
    rw [hxi, hxj]
  have key : ((c : Int) - d) * (boot.sectors_per_cluster : Int) =
      (j : Int) - i := by
    unfold toSector at heq
    linear_combination heq
  have hs : (0 : Int) < (boot.sectors_per_cluster : Int) := by
    exact_mod_cast hspos
  have hi' : (i : Int) < (boot.sectors_per_cluster : Int) := by exact_mod_cast hi
  have hj' : (j : Int) < (boot.sectors_per_cluster : Int) := by exact_mod_cast hj
  have hiz : (0 : Int) ≤ (i : Int) := Int.natCast_nonneg i
  have hjz : (0 : Int) ≤ (j : Int) := Int.natCast_nonneg j
  have hcd' : (c : Int) - d ≠ 0 := by
    intro h
    exact hcd (by exact_mod_cast sub_eq_zero.mp h)
  have habs : 1 ≤ |(c : Int) - d| := Int.one_le_abs hcd'
  have hlow : (boot.sectors_per_cluster : Int) ≤
      |((c : Int) - d) * (boot.sectors_per_cluster : Int)| := by
    rw [abs_mul, abs_of_pos hs]
    exact le_mul_of_one_le_left hs.le habs
  rw [key] at hlow
  have hup : |(j : Int) - i| < (boot.sectors_per_cluster : Int) := by
    rw [abs_lt]
    constructor <;> linarith
  linarith

/-- One cluster's sector range has no duplicates. -/
theorem clusterRange_nodup (boot : Boot) (c : Nat) :
    (clusterRange boot c).Nodup := by
  refine List.Nodup.map ?_ (List.nodup_range _)
  intro a b hab
  have : (a : Int) = (b : Int) := by
    have := hab
    simpa using add_left_cancel this
  exact_mod_cast this

/-- The concatenated ranges of a duplicate-free cluster list have no
duplicate sector numbers. -/
theorem flatMap_clusterRange_nodup (boot : Boot) (cs : List Nat)
    (h : cs.Nodup) : (cs.flatMap (clusterRange boot)).Nodup := by
  rw [List.nodup_flatMap]
  refine ⟨fun c _ => clusterRange_nodup boot c, ?_⟩
  exact h.imp (fun hne x hx hx' => clusterRange_disjoint boot hne x hx hx')

/-- The chain-following loop, run on a cluster list in which each
entry names its successor, all members are chain-continuation values,
and the last member's entry is an end-of-chain marker, appends exactly
the clusters' sector ranges in order. -/
theorem getSectorsLoop_chain (boot : Boot) (fat : List Nat) :
    ∀ (cs : List Nat) (hne : cs ≠ []) (acc : List Int),
    (∀ c ∈ cs, 0 < c ∧ c ≤ 0x0FFFFFF8) →
    List.Chain' (fun a b => fatEntry fat a = b) cs →
    0x0FFFFFF8 < fatEntry fat (cs.getLast hne) →
    ∀ fuel, cs.length + 1 ≤ fuel →
    getSectorsLoop fuel boot fat (cs.head hne) acc =
      .ok (acc ++ cs.flatMap (clusterRange boot)) := by
  intro cs
  induction cs with
  | nil => intro hne; exact absurd rfl hne
  | cons c rest ih =>
    intro hne acc hall hchain hlast fuel hfuel
    rw [List.length_cons] at hfuel
    obtain ⟨f, rfl⟩ : ∃ f, fuel = f + 1 := ⟨fuel - 1, by omega⟩
    simp only [List.head_cons]
    rw [getSectorsLoop]
    rw [if_pos (hall c (List.mem_cons_self c rest)).2]
    cases rest with
    | nil =>
      have hlast' : 0x0FFFFFF8 < fatEntry fat c := by
        simpa using hlast
      obtain ⟨f', rfl⟩ : ∃ f', f = f' + 1 := ⟨f - 1, by simp at hfuel; omega⟩
      rw [getSectorsLoop, if_neg (by omega)]
      simp
    | cons d rest2 =>
      have hcd : fatEntry fat c = d := (List.chain'_cons.mp hchain).1
      rw [hcd]
      have ihresult := ih (by simp) (acc ++ clusterRange boot c)
        (fun x hx => hall x (List.mem_cons_of_mem c hx))
        (List.chain'_cons.mp hchain).2
        (by simpa [List.getLast_cons] using hlast)
        f (by simp at hfuel ⊢; omega)
      simp only [List.head_cons] at ihresult
      rw [ihresult]
      simp [List.flatMap_cons, List.append_assoc]

/-- C6: for every acyclic chain of `k` clusters — the starting cluster
within the resolve_chain bound, each FAT entry naming the next cluster
with a value in (0, 0x0FFFFFF8], and the last cluster's entry strictly
above 0x0FFFFFF8 — `Fat._get_sectors` returns exactly the concatenation
of the clusters' sector ranges in traversal order: `k × sectors_per_cluster`
sector numbers with no duplicates. -/
theorem c6_chain_resolution (boot : Boot) (fat : List Nat) (cs : List Nat)
    (hne : cs ≠ [])
    (hbound : 0 < cs.head hne * 4 + 4 ∧
      cs.head hne * 4 + 4 < boot.sectors_per_fat)
    (htail : ∀ c ∈ cs.tail, 0 < c ∧ c ≤ 0x0FFFFFF8)
    (hchain : List.Chain' (fun a b => fatEntry fat a = b) cs)
    (hlast : 0x0FFFFFF8 < fatEntry fat (cs.getLast hne))
    (hnodup : cs.Nodup)
    (fuel : Nat) (hfuel : cs.length ≤ fuel) :
    getSectors fuel boot fat (cs.head hne) =
      .ok (cs.flatMap (clusterRange boot)) ∧
    (cs.flatMap (clusterRange boot)).length =
      cs.length * boot.sectors_per_cluster ∧
    (cs.flatMap (clusterRange boot)).Nodup := by
  refine ⟨?_, flatMap_clusterRange_length boot cs,
    flatMap_clusterRange_nodup boot cs hnodup⟩
  cases cs with
  | nil => exact absurd rfl hne
  | cons c rest =>
    simp only [List.head_cons] at hbound ⊢
    unfold getSectors
    rw [if_pos hbound]
    cases rest with
    | nil =>
      have hec : 0x0FFFFFF8 < fatEntry fat c := by simpa using hlast
      rw [if_pos (show fatEntry fat c ≠ 0 by omega)]
      rw [List.length_cons] at hfuel
      obtain ⟨f, rfl⟩ : ∃ f, fuel = f + 1 := ⟨fuel - 1, by omega⟩
      rw [getSectorsLoop, if_neg (by omega)]
      simp
    | cons d rest2 =>
      have hcd : fatEntry fat c = d := (List.chain'_cons.mp hchain).1
      have hd : 0 < d ∧ d ≤ 0x0FFFFFF8 := htail d (by simp)
      rw [if_pos (show fatEntry fat c ≠ 0 by omega)]
      rw [hcd]
      have happ := getSectorsLoop_chain boot fat (d :: rest2) (by simp)
        (clusterRange boot c) (by simpa using htail)
        (List.chain'_cons.mp hchain).2
        (by simpa [List.getLast_cons] using hlast)
        fuel (by simp at hfuel ⊢; omega)
      simp only [List.head_cons] at happ
      rw [happ]
      simp [List.flatMap_cons, List.append_assoc]

/-- Witness for C6: in `imgC3` the root chain is the two-cluster chain
2 → 3 (entry of 2 names 3, entry of 3 is an end-of-chain marker);
resolve_chain returns its two sector ranges in order, of total length
2 × sectors_per_cluster, without duplicates. -/
theorem c6_witness :
    getSectors 5 bootC3 fatC3 2 = .ok ([2, 3].flatMap (clusterRange bootC3)) ∧
    ([2, 3].flatMap (clusterRange bootC3)).length =
      2 * bootC3.sectors_per_cluster ∧
    ([2, 3].flatMap (clusterRange bootC3)).Nodup := by
  have h := c6_chain_resolution bootC3 fatC3 [2, 3] (by decide) (by decide)
    (by decide)
    (List.chain'_cons.mpr ⟨by decide, List.chain'_singleton 3⟩)
    (by decide) (by decide) 5 (by decide)
  simpa using h
